import Mathlib

/-!
Verification of the pairwise-preference scoring engine in src/pl_train.py.

The development shallowly embeds the core of the file:
the scoring model (class Scorer: black-box GPT2 encoder plus a bias-free
linear scoring head with mean aggregation over the sequence dimension),
the three Lightning step functions (training_step, validation_step,
test_step), the per-phase metric accumulators (torchmetrics Accuracy and
SpearmanCorrCoef, modelled by their accumulator contracts), and the
epoch-start reset hooks.

One-dimensional tensors are lists of reals; elementwise binary tensor
operations carry torch broadcasting semantics for 1-D shapes: defined when
the lengths agree or one operand is a singleton, a shape error (None)
otherwise.  Fallible steps return Option.  A separate, computable model
over the rationals (type FP) captures float32 overflow and underflow of
torch.exp in order to evaluate the numeric-stability claim about the
exponential-ratio loss formula.
-/

namespace DialogRPT

/-- torch.sigmoid over the reals: sigmoid x = 1 / (1 + exp (-x)). -/
noncomputable def sigmoid (x : ℝ) : ℝ := 1 / (1 + Real.exp (-x))

/-- Elementwise binary operation on 1-D tensors with torch broadcasting:
defined when the two lengths agree (elementwise zipWith) or when one
operand has length 1 (it is broadcast across the other); any other shape
combination is a shape-mismatch error (none). -/
def bcast {α β γ : Type} (f : α → β → γ) (a : List α) (b : List β) : Option (List γ) :=
  if a.length = b.length then some (List.zipWith f a b)
  else
    match a, b with
    | [x], b => some (b.map (fun y => f x y))
    | a, [y] => some (a.map (fun x => f x y))
    | _, _ => none

/-- Dot product of two equal-length real vectors. -/
noncomputable def dot (w v : List ℝ) : ℝ := (List.zipWith (fun a b => a * b) w v).sum

/-- Mean of a list of reals (torch mean over a dimension). -/
noncomputable def mean (xs : List ℝ) : ℝ := xs.sum / xs.length

/-- The model of class Scorer (lines 10-30): the pretrained GPT2 encoder is
an external collaborator, kept as a black-box function from a batch of
token-id sequences and a parallel batch of attention masks to per-token
hidden states (batch of L x D matrices); the scoring head
torch.nn.Linear(n_embd, 1, bias := False) is determined by its single weight
row w (no bias parameter exists). -/
structure Scorer where
  w : List ℝ
  transformer : List (List ℤ) → List (List ℤ) → List (List (List ℝ))

/-- The per-token scalar produced by the scoring head on one hidden-state
vector: self.score(features) followed by squeeze(-1) computes, for each
token, the bias-free inner product of the weight row with the hidden state. -/
noncomputable def scoreTok (w : List ℝ) (v : List ℝ) : ℝ := dot w v

/-- The per-example score: self.score(features).squeeze(-1).mean(dim=1),
i.e. the arithmetic mean of the per-token scalars over the full sequence
length, with no mask-based exclusion of padded positions (line 30). -/
noncomputable def exampleScore (w : List ℝ) (features : List (List ℝ)) : ℝ :=
  mean (features.map (scoreTok w))

/-- Scorer.forward (lines 23-30): run the shared encoder once on the
positive batch and once on the negative batch, apply the shared scoring
head to each, and return the two per-example score vectors. -/
noncomputable def Scorer.forward (m : Scorer)
    (pos_samples pos_atn_masks neg_samples neg_atn_masks : List (List ℤ)) :
    List ℝ × List ℝ :=
  ((m.transformer pos_samples pos_atn_masks).map (exampleScore m.w),
   (m.transformer neg_samples neg_atn_masks).map (exampleScore m.w))

/-- One batch as produced by the dataloader contract: token ids and
attention masks for the positive and negative roles, the per-example human
feedback scores, and the per-example human rank labels. -/
structure Batch where
  pos_samples : List (List ℤ)
  pos_atn_masks : List (List ℤ)
  neg_samples : List (List ℤ)
  neg_atn_masks : List (List ℤ)
  score_pos : List ℝ
  score_neg : List ℝ
  rank_pos : List ℝ
  rank_neg : List ℝ

/-- torchmetrics Accuracy accumulator, modelled by its running-statistic
contract (spec section 4.4): the count of correct predictions and the count
of all examples seen since the last reset. -/
structure Accuracy where
  correct : ℕ
  total : ℕ
deriving DecidableEq

/-- Accuracy.update, the effect of calling the metric on a batch of
predictions and targets: shapes must agree, else the call is a shape error;
on success the correct and total counts grow. -/
def Accuracy.update (a : Accuracy) (preds targets : List Bool) : Option Accuracy :=
  if preds.length = targets.length then
    some ⟨a.correct + (List.zipWith (fun p t => p == t) preds targets).count true,
          a.total + preds.length⟩
  else none

/-- Accuracy.reset: return the accumulator to its initial empty state. -/
def Accuracy.reset (_ : Accuracy) : Accuracy := ⟨0, 0⟩

/-- torchmetrics SpearmanCorrCoef accumulator, modelled by its contract:
the (model score, human rank) observations accumulated since the last
reset; the coefficient itself is computed from these at epoch end. -/
structure Spearman where
  pairs : List (ℝ × ℝ)

/-- Spearman.update: one call of the metric on a score vector and a rank
vector of equal length appends the paired observations; mismatched shapes
are an error. -/
def Spearman.update (sp : Spearman) (scores ranks : List ℝ) : Option Spearman :=
  if scores.length = ranks.length then some ⟨sp.pairs ++ List.zip scores ranks⟩ else none

/-- Spearman.reset: drop all accumulated observations. -/
def Spearman.reset (_ : Spearman) : Spearman := ⟨[]⟩

/-- The per-phase metric accumulators owned by ScorerPLWrapper
(lines 40-43): train, validation and test accuracy, and the test-only
Spearman rank-correlation accumulator. -/
structure MetricState where
  train_acc : Accuracy
  val_acc : Accuracy
  test_acc : Accuracy
  test_spearman_coeff : Spearman

/-- The values computed by one training or validation step, together with
the updated metric state: the raw score vectors, the comparison targets,
the boolean predictions, and the per-example loss vector. -/
structure StepOut where
  state : MetricState
  pos_score : List ℝ
  neg_score : List ℝ
  targets : List Bool
  preds : List Bool
  loss : List ℝ

/-- The values computed by one test step: here pos_score and neg_score are
the sigmoid-transformed score vectors, exactly as the code rebinds them
(lines 109-110) before deriving predictions and rank-correlation inputs. -/
structure TestOut where
  state : MetricState
  pos_score : List ℝ
  neg_score : List ℝ
  targets : List Bool
  preds : List Bool

/-- ScorerPLWrapper.training_step (lines 54-78): targets are the human
comparison (score_pos - score_neg) > 0; the model scores the pair; the
pairwise probability is the literal exponential ratio
exp(pos) / (exp(pos) + exp(neg)); the loss is -log of it; predictions are
sigmoid(pos) - sigmoid(neg) > 0; the train accuracy accumulator is updated. -/
noncomputable def training_step (m : Scorer) (b : Batch) (s : MetricState) : Option StepOut := do
  let d ← bcast (fun a b => a - b) b.score_pos b.score_neg
  let targets := d.map (fun x => decide (0 < x))
  let scores := m.forward b.pos_samples b.pos_atn_masks b.neg_samples b.neg_atn_masks
  let pos_score := scores.1
  let neg_score := scores.2
  let den ← bcast (fun a b => a + b) (pos_score.map Real.exp) (neg_score.map Real.exp)
  let probs ← bcast (fun a b => a / b) (pos_score.map Real.exp) den
  let loss := probs.map (fun p => -Real.log p)
  let sd ← bcast (fun a b => a - b) (pos_score.map sigmoid) (neg_score.map sigmoid)
  let preds := sd.map (fun x => decide (0 < x))
  let acc ← s.train_acc.update preds targets
  return ⟨{ s with train_acc := acc }, pos_score, neg_score, targets, preds, loss⟩

/-- ScorerPLWrapper.validation_step (lines 80-102): identical computation
to the training step, updating the validation accuracy accumulator. -/
noncomputable def validation_step (m : Scorer) (b : Batch) (s : MetricState) : Option StepOut := do
  let d ← bcast (fun a b => a - b) b.score_pos b.score_neg
  let targets := d.map (fun x => decide (0 < x))
  let scores := m.forward b.pos_samples b.pos_atn_masks b.neg_samples b.neg_atn_masks
  let pos_score := scores.1
  let neg_score := scores.2
  let den ← bcast (fun a b => a + b) (pos_score.map Real.exp) (neg_score.map Real.exp)
  let probs ← bcast (fun a b => a / b) (pos_score.map Real.exp) den
  let loss := probs.map (fun p => -Real.log p)
  let sd ← bcast (fun a b => a - b) (pos_score.map sigmoid) (neg_score.map sigmoid)
  let preds := sd.map (fun x => decide (0 < x))
  let acc ← s.val_acc.update preds targets
  return ⟨{ s with val_acc := acc }, pos_score, neg_score, targets, preds, loss⟩

/-- ScorerPLWrapper.test_step (lines 104-130): targets as in training; the
score vectors are rebound to their sigmoid transforms; predictions are
(pos - neg) > 0 on the transformed scores; the test accuracy accumulator is
updated, then the Spearman accumulator is fed twice, first the transformed
positive scores with rank_pos, then the transformed negative scores with
rank_neg. -/
noncomputable def test_step (m : Scorer) (b : Batch) (s : MetricState) : Option TestOut := do
  let d ← bcast (fun a b => a - b) b.score_pos b.score_neg
  let targets := d.map (fun x => decide (0 < x))
  let scores := m.forward b.pos_samples b.pos_atn_masks b.neg_samples b.neg_atn_masks
  let pos_score := scores.1.map sigmoid
  let neg_score := scores.2.map sigmoid
  let sd ← bcast (fun a b => a - b) pos_score neg_score
  let preds := sd.map (fun x => decide (0 < x))
  let acc ← s.test_acc.update preds targets
  let sp1 ← s.test_spearman_coeff.update pos_score b.rank_pos
  let sp2 ← sp1.update neg_score b.rank_neg
  return ⟨{ s with test_acc := acc, test_spearman_coeff := sp2 }, pos_score, neg_score, targets, preds⟩

/-- ScorerPLWrapper.on_train_epoch_start (lines 132-133): reset the train
accuracy accumulator. -/
def on_train_epoch_start (s : MetricState) : MetricState :=
  { s with train_acc := s.train_acc.reset }

/-- ScorerPLWrapper.on_validation_epoch_start (lines 135-136): reset the
validation accuracy accumulator. -/
def on_validation_epoch_start (s : MetricState) : MetricState :=
  { s with val_acc := s.val_acc.reset }

/-- ScorerPLWrapper.on_test_epoch_start (lines 138-140): reset the test
accuracy accumulator and the Spearman accumulator. -/
def on_test_epoch_start (s : MetricState) : MetricState :=
  { s with test_acc := s.test_acc.reset,
           test_spearman_coeff := s.test_spearman_coeff.reset }

/-! ### Float32 overflow model

The loss formula of lines 59-63 is executed by torch in float32.  To settle
the numeric-stability claim, type FP models a float32 value as a finite
rational, positive infinity, or NaN.  Only positive infinity is tracked:
the sole infinity produced on the evaluated inputs comes from overflow of
torch.exp, whose result is never negative; a would-be negative infinity
(from log of zero, or negation of infinity) is collapsed to nan, which is
sound for every statement below because both are non-finite. -/

/-- An idealized float32 value: finite, positive infinity, or NaN. -/
inductive FP where
  | fin (q : ℚ)
  | inf
  | nan
deriving DecidableEq

/-- float32 torch.exp: arguments at or above 89 overflow to +inf (the true
float32 overflow threshold is about 88.73), arguments at or below -104
underflow to +0; on the finite regime the rounded finite value is kept
abstract as e q. -/
def FP.exp (e : ℚ → ℚ) : FP → FP
  | .fin q => if 89 ≤ q then .inf else if q ≤ -104 then .fin 0 else .fin (e q)
  | .inf => .inf
  | .nan => .nan

/-- float32 addition on the model: inf + finite = inf, inf + inf = inf,
nan propagates. -/
def FP.add : FP → FP → FP
  | .fin a, .fin b => .fin (a + b)
  | .fin _, .inf => .inf
  | .inf, .fin _ => .inf
  | .inf, .inf => .inf
  | _, _ => .nan

/-- float32 division on the model: inf / inf = nan (the indeterminate form
produced by the overflowed ratio), finite / inf = 0, inf / finite = inf,
finite / 0 is non-finite (collapsed to nan), nan propagates. -/
def FP.div : FP → FP → FP
  | .fin a, .fin b => if b = 0 then .nan else .fin (a / b)
  | .fin _, .inf => .fin 0
  | .inf, .fin _ => .inf
  | .inf, .inf => .nan
  | _, _ => .nan

/-- float32 log on the model: log of a nonpositive finite value is
non-finite (collapsed to nan), log inf = inf, nan propagates; on positive
finite values the rounded result is kept abstract as l q. -/
def FP.log (l : ℚ → ℚ) : FP → FP
  | .fin q => if q ≤ 0 then .nan else .fin (l q)
  | .inf => .inf
  | .nan => .nan

/-- float32 negation on the model: negation of infinity is non-finite
(collapsed to nan), nan propagates. -/
def FP.neg : FP → FP
  | .fin a => .fin (-a)
  | .inf => .nan
  | .nan => .nan

/-- Whether a model float is a finite value. -/
def FP.isFinite : FP → Bool
  | .fin _ => true
  | _ => false

/-- The per-example loss of lines 59-63 evaluated in the float32 model:
probs = exp(pos) / (exp(pos) + exp(neg)); loss = -log(probs).  The finite
regimes of exp and log are abstract parameters e and l. -/
def trainLossFP (e l : ℚ → ℚ) (pos neg : ℚ) : FP :=
  FP.neg (FP.log l (FP.div (FP.exp e (.fin pos)) (FP.add (FP.exp e (.fin pos)) (FP.exp e (.fin neg)))))

/-- The spec-mandated stable formulation -log_sigmoid(pos - neg) evaluated
in the float32 model, with log_sigmoid x computed stably as
-log (1 + exp (-x)), so the loss is log (1 + exp (-(pos - neg))). -/
def stableLossFP (e l : ℚ → ℚ) (pos neg : ℚ) : FP :=
  FP.log l (FP.add (.fin 1) (FP.exp e (.fin (-(pos - neg)))))

/-- Abbreviation: the per-example score vector of the positive role. -/
noncomputable def posScores (m : Scorer) (b : Batch) : List ℝ :=
  (m.transformer b.pos_samples b.pos_atn_masks).map (exampleScore m.w)

/-- Abbreviation: the per-example score vector of the negative role. -/
noncomputable def negScores (m : Scorer) (b : Batch) : List ℝ :=
  (m.transformer b.neg_samples b.neg_atn_masks).map (exampleScore m.w)


/-- A concrete scorer used to instantiate the step theorems: the black-box
encoder returns a single one-dimensional hidden state [1] per example and
the scoring-head weight row is [1]. -/
noncomputable def cm : Scorer := ⟨[1], fun samples _ => samples.map (fun _ => [[1]])⟩

/-- A concrete well-formed one-example batch. -/
noncomputable def cb : Batch := ⟨[[0]], [[1]], [[0]], [[1]], [5], [1], [1], [2]⟩

/-- A concrete metric state with empty accumulators. -/
def cs : MetricState := ⟨⟨0, 0⟩, ⟨0, 0⟩, ⟨0, 0⟩, ⟨[]⟩⟩

/-- A malformed batch: four positive-role feedback scores but only three
negative-role ones. -/
noncomputable def cbBad : Batch := ⟨[], [], [], [], [5, 4, 3, 2], [1, 1, 1], [], []⟩

/-! ### Helper lemmas -/

lemma bcast_of_length_eq {α β γ : Type} (f : α → β → γ) {a : List α} {b : List β}
    (h : a.length = b.length) : bcast f a b = some (List.zipWith f a b) := by
  simp [bcast, h]

lemma bcast_none_of_mismatch {α β γ : Type} (f : α → β → γ) {a : List α} {b : List β}
    (hab : a.length ≠ b.length) (ha : a.length ≠ 1) (hb : b.length ≠ 1) :
    bcast f a b = none := by
  rcases a with _ | ⟨x, _ | ⟨y, t⟩⟩ <;> rcases b with _ | ⟨u, _ | ⟨v, r⟩⟩ <;>
    simp_all [bcast]

lemma one_add_exp_pos (x : ℝ) : 0 < 1 + Real.exp x := by positivity

lemma sigmoid_zero : sigmoid 0 = 1 / 2 := by
  simp [sigmoid]
  norm_num

lemma sigmoid_strictMono : StrictMono sigmoid := by
  intro a b hab
  have h1 : Real.exp (-b) < Real.exp (-a) := Real.exp_lt_exp.2 (by linarith)
  have h2 : 0 < 1 + Real.exp (-b) := one_add_exp_pos _
  unfold sigmoid
  exact one_div_lt_one_div_of_lt h2 (by linarith)

lemma sigmoid_sub_pos (p n : ℝ) : 0 < sigmoid p - sigmoid n ↔ n < p := by
  rw [sub_pos, sigmoid_strictMono.lt_iff_lt]

lemma prob_eq_sigmoid (p n : ℝ) :
    Real.exp p / (Real.exp p + Real.exp n) = sigmoid (p - n) := by
  have hp : Real.exp p ≠ 0 := (Real.exp_pos p).ne'
  unfold sigmoid
  rw [neg_sub, Real.exp_sub, one_add_div hp, one_div_div]

lemma sum_map_get {α : Type} (f : α → ℝ) (l : List α) :
    (l.map f).sum = ∑ i : Fin l.length, f (l.get i) := by
  induction l with
  | nil => simp
  | cons x t ih =>
    simp only [List.map_cons, List.sum_cons, List.length_cons, Fin.sum_univ_succ,
      List.get_cons_zero, ih]
    rfl

lemma dot_replicate_zero (w : List ℝ) (D : ℕ) : dot w (List.replicate D 0) = 0 := by
  induction w generalizing D with
  | nil => simp [dot]
  | cons a t ih =>
    cases D with
    | zero => simp [dot]
    | succ k => simpa [dot, List.replicate_succ] using ih k

lemma zipWith_map_zipWith {α β γ δ ε : Type} (f : γ → δ → ε) (h : α → γ) (g : α → β → δ) :
    ∀ (a : List α) (b : List β),
      List.zipWith f (a.map h) (List.zipWith g a b) =
        List.zipWith (fun x y => f (h x) (g x y)) a b
  | [], _ => by simp
  | _ :: _, [] => by simp
  | x :: xs, y :: ys => by
    simp [zipWith_map_zipWith f h g xs ys]

/-- Characterization of training_step on a well-formed batch: all shape
checks pass and every computed value is given in closed form. -/
lemma training_step_eq (m : Scorer) (b : Batch) (s : MetricState)
    (h1 : b.score_pos.length = b.score_neg.length)
    (h2 : (posScores m b).length = (negScores m b).length)
    (h3 : (posScores m b).length = b.score_pos.length) :
    training_step m b s = some
      { state := { s with train_acc :=
          ⟨s.train_acc.correct +
            (List.zipWith (fun p t => p == t)
              (List.zipWith (fun p n => decide (0 < sigmoid p - sigmoid n)) (posScores m b) (negScores m b))
              (List.zipWith (fun a c => decide (0 < a - c)) b.score_pos b.score_neg)).count true,
           s.train_acc.total +
            (List.zipWith (fun a c => decide (0 < a - c)) b.score_pos b.score_neg).length⟩ },
        pos_score := posScores m b,
        neg_score := negScores m b,
        targets := List.zipWith (fun a c => decide (0 < a - c)) b.score_pos b.score_neg,
        preds := List.zipWith (fun p n => decide (0 < sigmoid p - sigmoid n)) (posScores m b) (negScores m b),
        loss := List.zipWith (fun p n => -Real.log (Real.exp p / (Real.exp p + Real.exp n))) (posScores m b) (negScores m b) } := by
  have e4 : (List.zipWith (fun p n => decide (0 < sigmoid p - sigmoid n)) (posScores m b) (negScores m b)).length
      = (List.zipWith (fun a c => decide (0 < a - c)) b.score_pos b.score_neg).length := by
    simp [List.length_zipWith, h1, h2, h3]
    omega
  simp only [training_step, Scorer.forward]
  rw [bcast_of_length_eq _ h1]
  simp only [Option.bind_eq_bind, Option.some_bind]
  rw [show ((m.transformer b.pos_samples b.pos_atn_masks).map (exampleScore m.w)) = posScores m b from rfl,
      show ((m.transformer b.neg_samples b.neg_atn_masks).map (exampleScore m.w)) = negScores m b from rfl]
  rw [bcast_of_length_eq _ (by simp [h2] : ((posScores m b).map Real.exp).length = ((negScores m b).map Real.exp).length)]
  simp only [Option.some_bind]
  rw [bcast_of_length_eq _ (by simp [List.length_zipWith, h2] : ((posScores m b).map Real.exp).length = (List.zipWith (fun a b => a + b) ((posScores m b).map Real.exp) ((negScores m b).map Real.exp)).length)]
  simp only [Option.some_bind]
  rw [bcast_of_length_eq _ (by simp [h2] : ((posScores m b).map sigmoid).length = ((negScores m b).map sigmoid).length)]
  simp only [Option.some_bind]
  simp only [List.zipWith_map, List.map_zipWith, zipWith_map_zipWith]
  simp only [Accuracy.update, e4, if_true, eq_self_iff_true]
  simp only [Option.some_bind]
  rfl

/-- Characterization of validation_step on a well-formed batch: identical
to the training step except that the validation accuracy accumulator is
the one updated. -/
lemma validation_step_eq (m : Scorer) (b : Batch) (s : MetricState)
    (h1 : b.score_pos.length = b.score_neg.length)
    (h2 : (posScores m b).length = (negScores m b).length)
    (h3 : (posScores m b).length = b.score_pos.length) :
    validation_step m b s = some
      { state := { s with val_acc :=
          ⟨s.val_acc.correct +
            (List.zipWith (fun p t => p == t)
              (List.zipWith (fun p n => decide (0 < sigmoid p - sigmoid n)) (posScores m b) (negScores m b))
              (List.zipWith (fun a c => decide (0 < a - c)) b.score_pos b.score_neg)).count true,
           s.val_acc.total +
            (List.zipWith (fun a c => decide (0 < a - c)) b.score_pos b.score_neg).length⟩ },
        pos_score := posScores m b,
        neg_score := negScores m b,
        targets := List.zipWith (fun a c => decide (0 < a - c)) b.score_pos b.score_neg,
        preds := List.zipWith (fun p n => decide (0 < sigmoid p - sigmoid n)) (posScores m b) (negScores m b),
        loss := List.zipWith (fun p n => -Real.log (Real.exp p / (Real.exp p + Real.exp n))) (posScores m b) (negScores m b) } := by
  have e4 : (List.zipWith (fun p n => decide (0 < sigmoid p - sigmoid n)) (posScores m b) (negScores m b)).length
      = (List.zipWith (fun a c => decide (0 < a - c)) b.score_pos b.score_neg).length := by
    simp [List.length_zipWith, h1, h2, h3]
    omega
  simp only [validation_step, Scorer.forward]
  rw [bcast_of_length_eq _ h1]
  simp only [Option.bind_eq_bind, Option.some_bind]
  rw [show ((m.transformer b.pos_samples b.pos_atn_masks).map (exampleScore m.w)) = posScores m b from rfl,
      show ((m.transformer b.neg_samples b.neg_atn_masks).map (exampleScore m.w)) = negScores m b from rfl]
  rw [bcast_of_length_eq _ (by simp [h2] : ((posScores m b).map Real.exp).length = ((negScores m b).map Real.exp).length)]
  simp only [Option.some_bind]
  rw [bcast_of_length_eq _ (by simp [List.length_zipWith, h2] : ((posScores m b).map Real.exp).length = (List.zipWith (fun a b => a + b) ((posScores m b).map Real.exp) ((negScores m b).map Real.exp)).length)]
  simp only [Option.some_bind]
  rw [bcast_of_length_eq _ (by simp [h2] : ((posScores m b).map sigmoid).length = ((negScores m b).map sigmoid).length)]
  simp only [Option.some_bind]
  simp only [List.zipWith_map, List.map_zipWith, zipWith_map_zipWith]
  simp only [Accuracy.update, e4, if_true, eq_self_iff_true]
  simp only [Option.some_bind]
  rfl

/-- Characterization of test_step on a well-formed batch: scores are
sigmoid-transformed, the test accuracy accumulator is updated, and the
Spearman accumulator receives the transformed positive scores with
rank_pos and then the transformed negative scores with rank_neg. -/
lemma test_step_eq (m : Scorer) (b : Batch) (s : MetricState)
    (h1 : b.score_pos.length = b.score_neg.length)
    (h2 : (posScores m b).length = (negScores m b).length)
    (h3 : (posScores m b).length = b.score_pos.length)
    (h4 : (posScores m b).length = b.rank_pos.length)
    (h5 : (negScores m b).length = b.rank_neg.length) :
    test_step m b s = some
      { state :=
          { s with
            test_acc :=
              ⟨s.test_acc.correct +
                (List.zipWith (fun p t => p == t)
                  (List.zipWith (fun p n => decide (0 < sigmoid p - sigmoid n)) (posScores m b) (negScores m b))
                  (List.zipWith (fun a c => decide (0 < a - c)) b.score_pos b.score_neg)).count true,
               s.test_acc.total +
                (List.zipWith (fun a c => decide (0 < a - c)) b.score_pos b.score_neg).length⟩,
            test_spearman_coeff :=
              ⟨s.test_spearman_coeff.pairs
                ++ List.zip ((posScores m b).map sigmoid) b.rank_pos
                ++ List.zip ((negScores m b).map sigmoid) b.rank_neg⟩ },
        pos_score := (posScores m b).map sigmoid,
        neg_score := (negScores m b).map sigmoid,
        targets := List.zipWith (fun a c => decide (0 < a - c)) b.score_pos b.score_neg,
        preds := List.zipWith (fun p n => decide (0 < sigmoid p - sigmoid n)) (posScores m b) (negScores m b) } := by
  have e4 : (List.zipWith (fun p n => decide (0 < sigmoid p - sigmoid n)) (posScores m b) (negScores m b)).length
      = (List.zipWith (fun a c => decide (0 < a - c)) b.score_pos b.score_neg).length := by
    simp [List.length_zipWith, h1, h2, h3]
    omega
  simp only [test_step, Scorer.forward]
  rw [bcast_of_length_eq _ h1]
  simp only [Option.bind_eq_bind, Option.some_bind]
  rw [show ((m.transformer b.pos_samples b.pos_atn_masks).map (exampleScore m.w)) = posScores m b from rfl,
      show ((m.transformer b.neg_samples b.neg_atn_masks).map (exampleScore m.w)) = negScores m b from rfl]
  rw [bcast_of_length_eq _ (by simp [h2] : ((posScores m b).map sigmoid).length = ((negScores m b).map sigmoid).length)]
  simp only [Option.some_bind]
  simp only [List.zipWith_map, List.map_zipWith, zipWith_map_zipWith]
  simp only [Accuracy.update, e4, if_true, eq_self_iff_true]
  simp only [Option.some_bind]
  simp only [Spearman.update, List.length_map, h4, if_true, eq_self_iff_true]
  simp only [Option.some_bind]
  simp only [Spearman.update, List.length_map, h5, if_true, eq_self_iff_true]
  simp only [Option.some_bind]
  rfl

/-! ### Claim theorems -/

/-- C1: the spec requires the training/validation loss to equal
-log_sigmoid(pos_score - neg_score) and to remain finite at score
magnitude 1e4, but the code (lines 59-63, identically 85-89) computes the
literal ratio exp(pos)/(exp(pos)+exp(neg)) and -log of it: in float32
semantics this overflows at pos_score = 10000, neg_score = 0 and the loss
is NaN, while the mandated log-sigmoid formulation is finite on the same
input, whatever finite-regime roundings e and l the floats realize. -/
theorem training_loss_formula_overflows_at_1e4 (e l : ℚ → ℚ) :
    trainLossFP e l 10000 0 = FP.nan ∧ (stableLossFP e l 10000 0).isFinite = true := by
  refine ⟨rfl, ?_⟩
  norm_num [stableLossFP, FP.exp, FP.add, FP.log, FP.isFinite]

/-- C2: in all three phases the per-example targets are exactly the
comparison (score_pos - score_neg) > 0 on the human-feedback scores of the
batch; the formula does not mention the model or its outputs. -/
theorem targets_are_feedback_comparison (m : Scorer) (b : Batch) (s : MetricState)
    (h1 : b.score_pos.length = b.score_neg.length)
    (h2 : (posScores m b).length = (negScores m b).length)
    (h3 : (posScores m b).length = b.score_pos.length)
    (h4 : (posScores m b).length = b.rank_pos.length)
    (h5 : (negScores m b).length = b.rank_neg.length) :
    (training_step m b s).map StepOut.targets
      = some (List.zipWith (fun a c => decide (0 < a - c)) b.score_pos b.score_neg)
    ∧ (validation_step m b s).map StepOut.targets
      = some (List.zipWith (fun a c => decide (0 < a - c)) b.score_pos b.score_neg)
    ∧ (test_step m b s).map TestOut.targets
      = some (List.zipWith (fun a c => decide (0 < a - c)) b.score_pos b.score_neg) := by
  rw [training_step_eq m b s h1 h2 h3, validation_step_eq m b s h1 h2 h3,
      test_step_eq m b s h1 h2 h3 h4 h5]
  exact ⟨rfl, rfl, rfl⟩

/-- C2 witness: the theorem instantiated at a concrete scorer, batch and
metric state, all hypotheses discharged by rfl. -/
theorem targets_are_feedback_comparison_witness :
    (training_step cm cb cs).map StepOut.targets
      = some (List.zipWith (fun a c => decide (0 < a - c)) cb.score_pos cb.score_neg)
    ∧ (validation_step cm cb cs).map StepOut.targets
      = some (List.zipWith (fun a c => decide (0 < a - c)) cb.score_pos cb.score_neg)
    ∧ (test_step cm cb cs).map TestOut.targets
      = some (List.zipWith (fun a c => decide (0 < a - c)) cb.score_pos cb.score_neg) :=
  targets_are_feedback_comparison cm cb cs rfl rfl rfl rfl rfl

/-- C3: predictions are phase-specific: train and validation use
sigmoid(pos_score) - sigmoid(neg_score) > 0 on the raw scores; test first
sigmoid-transforms the scores and uses (pos - neg) > 0 on the transforms,
strictly, so sigmoid maps a zero score to 1/2 and equal scores are
predicted False. -/
theorem predictions_phase_rules (m : Scorer) (b : Batch) (s : MetricState) (x : ℝ)
    (h1 : b.score_pos.length = b.score_neg.length)
    (h2 : (posScores m b).length = (negScores m b).length)
    (h3 : (posScores m b).length = b.score_pos.length)
    (h4 : (posScores m b).length = b.rank_pos.length)
    (h5 : (negScores m b).length = b.rank_neg.length) :
    (training_step m b s).map StepOut.preds
      = some (List.zipWith (fun p n => decide (0 < sigmoid p - sigmoid n))
          (posScores m b) (negScores m b))
    ∧ (validation_step m b s).map StepOut.preds
      = some (List.zipWith (fun p n => decide (0 < sigmoid p - sigmoid n))
          (posScores m b) (negScores m b))
    ∧ (test_step m b s).map TestOut.preds
      = some (List.zipWith (fun a c => decide (0 < a - c))
          ((posScores m b).map sigmoid) ((negScores m b).map sigmoid))
    ∧ sigmoid 0 = 1 / 2
    ∧ decide (0 < sigmoid x - sigmoid x) = false := by
  rw [training_step_eq m b s h1 h2 h3, validation_step_eq m b s h1 h2 h3,
      test_step_eq m b s h1 h2 h3 h4 h5]
  refine ⟨rfl, rfl, ?_, sigmoid_zero, ?_⟩
  · simp [List.zipWith_map]
  · exact decide_eq_false (by simp [sigmoid_sub_pos])

/-- C3 witness: the theorem instantiated at a concrete scorer, batch,
metric state and score 0, all hypotheses discharged by rfl. -/
theorem predictions_phase_rules_witness :
    (training_step cm cb cs).map StepOut.preds
      = some (List.zipWith (fun p n => decide (0 < sigmoid p - sigmoid n))
          (posScores cm cb) (negScores cm cb))
    ∧ (validation_step cm cb cs).map StepOut.preds
      = some (List.zipWith (fun p n => decide (0 < sigmoid p - sigmoid n))
          (posScores cm cb) (negScores cm cb))
    ∧ (test_step cm cb cs).map TestOut.preds
      = some (List.zipWith (fun a c => decide (0 < a - c))
          ((posScores cm cb).map sigmoid) ((negScores cm cb).map sigmoid))
    ∧ sigmoid 0 = 1 / 2
    ∧ decide (0 < sigmoid 0 - sigmoid 0) = false :=
  predictions_phase_rules cm cb cs 0 rfl rfl rfl rfl rfl

/-- C4: the scoring head maps each per-token hidden state to one scalar by
a single linear projection with no bias (the all-zero vector scores 0),
and the per-example score is the arithmetic mean of the per-token scalars
over the full sequence length, padded positions included; the forward pass
applies exactly this head to each role. -/
theorem scoring_head_bias_free_full_mean (w : List ℝ) (features : List (List ℝ)) (D : ℕ)
    (m : Scorer) (ps pm ns nm : List (List ℤ)) :
    exampleScore w features
      = (∑ i : Fin features.length, dot w (features.get i)) / features.length
    ∧ scoreTok w (List.replicate D 0) = 0
    ∧ Scorer.forward m ps pm ns nm
      = ((m.transformer ps pm).map (exampleScore m.w),
         (m.transformer ns nm).map (exampleScore m.w)) := by
  refine ⟨?_, dot_replicate_zero w D, rfl⟩
  unfold exampleScore mean
  rw [sum_map_get]
  simp [scoreTok]

/-- C5: for every score pair the Bradley-Terry ratio
exp(pos)/(exp(pos)+exp(neg)) computed by the step functions equals
sigmoid(pos - neg), hence the per-example loss -log(prob) produced by the
training and validation steps equals -log(sigmoid(pos - neg)). -/
theorem prob_ratio_eq_logistic (m : Scorer) (b : Batch) (s : MetricState) (p n : ℝ)
    (h1 : b.score_pos.length = b.score_neg.length)
    (h2 : (posScores m b).length = (negScores m b).length)
    (h3 : (posScores m b).length = b.score_pos.length) :
    Real.exp p / (Real.exp p + Real.exp n) = sigmoid (p - n)
    ∧ (training_step m b s).map StepOut.loss
      = some (List.zipWith (fun p n => -Real.log (sigmoid (p - n)))
          (posScores m b) (negScores m b))
    ∧ (validation_step m b s).map StepOut.loss
      = some (List.zipWith (fun p n => -Real.log (sigmoid (p - n)))
          (posScores m b) (negScores m b)) := by
  refine ⟨prob_eq_sigmoid p n, ?_, ?_⟩
  · rw [training_step_eq m b s h1 h2 h3]
    simp only [Option.map_some', prob_eq_sigmoid]
  · rw [validation_step_eq m b s h1 h2 h3]
    simp only [Option.map_some', prob_eq_sigmoid]

/-- C5 witness: the theorem instantiated at a concrete scorer, batch,
metric state and score pair (2, 0), all hypotheses discharged by rfl. -/
theorem prob_ratio_eq_logistic_witness :
    Real.exp 2 / (Real.exp 2 + Real.exp 0) = sigmoid (2 - 0)
    ∧ (training_step cm cb cs).map StepOut.loss
      = some (List.zipWith (fun p n => -Real.log (sigmoid (p - n)))
          (posScores cm cb) (negScores cm cb))
    ∧ (validation_step cm cb cs).map StepOut.loss
      = some (List.zipWith (fun p n => -Real.log (sigmoid (p - n)))
          (posScores cm cb) (negScores cm cb)) :=
  prob_ratio_eq_logistic cm cb cs 2 0 rfl rfl rfl

/-- C6: the two forward passes are independent and share parameters: the
positive score vector depends only on the positive inputs, the negative
score vector only on the negative inputs, and swapping the roles shows the
very same encoder-plus-head function is applied to both. -/
theorem forward_passes_independent_shared (m : Scorer)
    (ps pm ns nm ps2 pm2 ns2 nm2 : List (List ℤ)) :
    (Scorer.forward m ps pm ns nm).1 = (Scorer.forward m ps pm ns2 nm2).1
    ∧ (Scorer.forward m ps pm ns nm).2 = (Scorer.forward m ps2 pm2 ns nm).2
    ∧ (Scorer.forward m ps pm ns nm).2 = (Scorer.forward m ns nm ps pm).1 :=
  ⟨rfl, rfl, rfl⟩

/-- C7: each epoch-start hook resets exactly its own phase's accumulators
(test resets both the test accuracy and the Spearman accumulator) and
leaves every other phase's accumulator unchanged. -/
theorem epoch_start_resets_only_own_phase (s : MetricState) :
    (on_train_epoch_start s).train_acc = s.train_acc.reset
    ∧ (on_train_epoch_start s).val_acc = s.val_acc
    ∧ (on_train_epoch_start s).test_acc = s.test_acc
    ∧ (on_train_epoch_start s).test_spearman_coeff = s.test_spearman_coeff
    ∧ (on_validation_epoch_start s).val_acc = s.val_acc.reset
    ∧ (on_validation_epoch_start s).train_acc = s.train_acc
    ∧ (on_validation_epoch_start s).test_acc = s.test_acc
    ∧ (on_validation_epoch_start s).test_spearman_coeff = s.test_spearman_coeff
    ∧ (on_test_epoch_start s).test_acc = s.test_acc.reset
    ∧ (on_test_epoch_start s).test_spearman_coeff = s.test_spearman_coeff.reset
    ∧ (on_test_epoch_start s).train_acc = s.train_acc
    ∧ (on_test_epoch_start s).val_acc = s.val_acc :=
  ⟨rfl, rfl, rfl, rfl, rfl, rfl, rfl, rfl, rfl, rfl, rfl, rfl⟩

/-- C8: in the test phase each batch feeds the Spearman accumulator exactly
twice and in order: the sigmoid-transformed positive scores paired with
rank_pos, then the sigmoid-transformed negative scores paired with
rank_neg, pooled into the running observation list; the training and
validation steps leave the accumulator untouched. -/
theorem test_step_feeds_spearman_twice (m : Scorer) (b : Batch) (s : MetricState)
    (h1 : b.score_pos.length = b.score_neg.length)
    (h2 : (posScores m b).length = (negScores m b).length)
    (h3 : (posScores m b).length = b.score_pos.length)
    (h4 : (posScores m b).length = b.rank_pos.length)
    (h5 : (negScores m b).length = b.rank_neg.length) :
    (test_step m b s).map (fun o => o.state.test_spearman_coeff.pairs)
      = some (s.test_spearman_coeff.pairs
          ++ List.zip ((posScores m b).map sigmoid) b.rank_pos
          ++ List.zip ((negScores m b).map sigmoid) b.rank_neg)
    ∧ (training_step m b s).map (fun o => o.state.test_spearman_coeff.pairs)
      = some s.test_spearman_coeff.pairs
    ∧ (validation_step m b s).map (fun o => o.state.test_spearman_coeff.pairs)
      = some s.test_spearman_coeff.pairs := by
  rw [test_step_eq m b s h1 h2 h3 h4 h5, training_step_eq m b s h1 h2 h3,
      validation_step_eq m b s h1 h2 h3]
  exact ⟨rfl, rfl, rfl⟩

/-- C8 witness: the theorem instantiated at a concrete scorer, batch and
metric state, all hypotheses discharged by rfl. -/
theorem test_step_feeds_spearman_twice_witness :
    (test_step cm cb cs).map (fun o => o.state.test_spearman_coeff.pairs)
      = some (cs.test_spearman_coeff.pairs
          ++ List.zip ((posScores cm cb).map sigmoid) cb.rank_pos
          ++ List.zip ((negScores cm cb).map sigmoid) cb.rank_neg)
    ∧ (training_step cm cb cs).map (fun o => o.state.test_spearman_coeff.pairs)
      = some cs.test_spearman_coeff.pairs
    ∧ (validation_step cm cb cs).map (fun o => o.state.test_spearman_coeff.pairs)
      = some cs.test_spearman_coeff.pairs :=
  test_step_feeds_spearman_twice cm cb cs rfl rfl rfl rfl rfl

/-- C9: a batch whose positive and negative roles have mismatched sizes
(four positive feedback scores against three negative ones) makes every
step function fail with a shape error (none): nothing is truncated and the
batch is not silently skipped with a result. -/
theorem mismatched_batch_sizes_fail_step (m : Scorer) (b : Batch) (s : MetricState)
    (hp : b.score_pos.length = 4) (hn : b.score_neg.length = 3) :
    training_step m b s = none ∧ validation_step m b s = none ∧ test_step m b s = none := by
  have hb : bcast (fun a c => a - c) b.score_pos b.score_neg = none :=
    bcast_none_of_mismatch _ (by rw [hp, hn]; decide) (by rw [hp]; decide) (by rw [hn]; decide)
  refine ⟨?_, ?_, ?_⟩ <;> simp [training_step, validation_step, test_step, hb]

/-- C9 witness: the theorem instantiated at a concrete malformed batch with
four positive and three negative examples. -/
theorem mismatched_batch_sizes_fail_step_witness :
    training_step cm cbBad cs = none ∧ validation_step cm cbBad cs = none
    ∧ test_step cm cbBad cs = none :=
  mismatched_batch_sizes_fail_step cm cbBad cs rfl rfl

/-- C10: sigmoid is strictly increasing, so the train/validation rule
sigmoid(pos) - sigmoid(neg) > 0 holds exactly when pos > neg, and the test
rule applied to the sigmoid-transformed scores produces, example for
example, the same booleans as the train rule. -/
theorem prediction_rules_agree_with_raw_comparison (m : Scorer) (b : Batch)
    (s : MetricState) (p n : ℝ)
    (h1 : b.score_pos.length = b.score_neg.length)
    (h2 : (posScores m b).length = (negScores m b).length)
    (h3 : (posScores m b).length = b.score_pos.length)
    (h4 : (posScores m b).length = b.rank_pos.length)
    (h5 : (negScores m b).length = b.rank_neg.length) :
    StrictMono sigmoid
    ∧ (0 < sigmoid p - sigmoid n ↔ n < p)
    ∧ (training_step m b s).map StepOut.preds = (test_step m b s).map TestOut.preds := by
  refine ⟨sigmoid_strictMono, sigmoid_sub_pos p n, ?_⟩
  rw [training_step_eq m b s h1 h2 h3, test_step_eq m b s h1 h2 h3 h4 h5]
  rfl

/-- C10 witness: the theorem instantiated at a concrete scorer, batch,
metric state and score pair (3, 1), all hypotheses discharged by rfl. -/
theorem prediction_rules_agree_with_raw_comparison_witness :
    StrictMono sigmoid
    ∧ (0 < sigmoid 3 - sigmoid 1 ↔ (1 : ℝ) < 3)
    ∧ (training_step cm cb cs).map StepOut.preds = (test_step cm cb cs).map TestOut.preds :=
  prediction_rules_agree_with_raw_comparison cm cb cs 3 1 rfl rfl rfl rfl rfl

end DialogRPT
